import Mathlib

/-!
Verification of the `ceph_vm_exporter` repository's metrics-collection
pipeline against its specification.

The repository contains four historical variants of the collector:

* `src/main.go` (v0.1): pool enumeration via `rbd ls` (a JSON array of image
  names), one per-image detail fetch, labels `{cluster, pool, image}`.
* `src/unnamed/part_000` (v0.1.16, "mode-list shape"): pool-level
  `mirror pool status` payload listing images with an explicit
  `mirror_image_mode`, filtered to `journal`/`snapshot`, one per-image detail
  fetch, labels `{pool, image}`.
* `src/main.go` (v0.1.17) and `src/unnamed/part_001` (v0.1.18,
  "peer-description shape"): mirroring stats embedded as a JSON fragment in
  the first peer site's free-text description; no second fetch.

Modelling conventions:

* Go `float64` JSON fields are modelled as exact rationals (`ℚ`); IEEE
  rounding, NaN and infinities are outside this embedding.
* `RunRBD` (out-of-scope transport per spec §1) is modelled as the `Option`-
  valued raw payloads handed to the collectors: `none` is a fetch failure,
  `some raw` is the captured stdout. JSON decoding (`encoding/json`) is
  modelled by the executable parser below; a parse error is `none`.
* The parser models the subset of `encoding/json` these structs exercise:
  objects, arrays, strings with the common escapes, numbers, booleans and
  null; duplicate keys keep the last occurrence, unknown fields are ignored,
  missing fields decode to the Go zero value, and `null` decodes to the zero
  value (nil for pointer fields). Case-insensitive key matching and `\u`
  escapes are not modelled.
* Emitted Prometheus samples are `(metric name, label values, value)`
  triples in emission order; `prometheus.Desc` label names are fixed per
  collector and recorded in the comments.
-/

namespace CephVM

/-- Characters that the token rules make awkward to write literally. -/
def quoteChar : Char := Char.ofNat 34

def backslashChar : Char := Char.ofNat 92

def lbraceChar : Char := Char.ofNat 123

def rbraceChar : Char := Char.ofNat 125

/-- JSON document tree, the target of the modelled `json.Unmarshal`. -/
inductive Json where
  | null
  | bool (b : Bool)
  | num (q : ℚ)
  | str (s : String)
  | arr (items : List Json)
  | obj (fields : List (String × Json))
deriving Repr

def isWsChar (c : Char) : Bool :=
  c = ' ' || c = Char.ofNat 9 || c = Char.ofNat 10 || c = Char.ofNat 13

def skipWs : List Char → List Char
  | [] => []
  | c :: rest => if isWsChar c then skipWs rest else c :: rest

/-- Value of a JSON string escape character (`\n`, `\"`, ...). -/
def escChar (e : Char) : Option Char :=
  if e = quoteChar then some quoteChar
  else if e = backslashChar then some backslashChar
  else if e = '/' then some '/'
  else if e = 'n' then some (Char.ofNat 10)
  else if e = 't' then some (Char.ofNat 9)
  else if e = 'r' then some (Char.ofNat 13)
  else if e = 'b' then some (Char.ofNat 8)
  else if e = 'f' then some (Char.ofNat 12)
  else none

/-- Parse a JSON string body (the opening quote already consumed), returning
the decoded characters and the input past the closing quote. -/
def parseStringBody : List Char → Option (List Char × List Char)
  | [] => none
  | c :: rest =>
    if c = quoteChar then some ([], rest)
    else if c = backslashChar then
      match rest with
      | [] => none
      | e :: rest2 =>
        match escChar e, parseStringBody rest2 with
        | some ch, some (content, r) => some (ch :: content, r)
        | _, _ => none
    else
      match parseStringBody rest with
      | some (content, r) => some (c :: content, r)
      | none => none

def isDigitChar (c : Char) : Bool := '0' ≤ c && c ≤ '9'

def digitVal (c : Char) : Nat := c.toNat - 48

/-- Longest digit prefix and the remainder. -/
def spanDigits : List Char → (List Char × List Char)
  | [] => ([], [])
  | c :: rest =>
    if isDigitChar c then
      let p := spanDigits rest
      (c :: p.1, p.2)
    else ([], c :: rest)

def digitsToNat (ds : List Char) : Nat :=
  ds.foldl (fun a c => a * 10 + digitVal c) 0

/-- Optional exponent part of a JSON number; `some (0, l)` when absent. -/
def parseExpPart : List Char → Option (Int × List Char)
  | [] => some (0, [])
  | c :: rest =>
    if c = 'e' || c = 'E' then
      let sgnRest : Int × List Char :=
        match rest with
        | d :: r2 => if d = '+' then (1, r2) else if d = '-' then (-1, r2) else (1, rest)
        | [] => (1, [])
      let p := spanDigits sgnRest.2
      if p.1.isEmpty then none else some (sgnRest.1 * (digitsToNat p.1 : Int), p.2)
    else some (0, c :: rest)

def applyExp (q : ℚ) (e : Int) : ℚ :=
  if 0 ≤ e then q * (10 : ℚ) ^ e.toNat else q / (10 : ℚ) ^ (-e).toNat

/-- Parse a JSON number (exact rational in place of Go float64 rounding). -/
def parseNumber (l : List Char) : Option (ℚ × List Char) :=
  let negRest : Bool × List Char :=
    match l with
    | c :: rest => if c = '-' then (true, rest) else (false, l)
    | [] => (false, [])
  let ip := spanDigits negRest.2
  if ip.1.isEmpty then none
  else
    let ipart : ℚ := (digitsToNat ip.1 : ℚ)
    let fracCont : Option (ℚ × List Char) :=
      match ip.2 with
      | c :: rest =>
        if c = '.' then
          let fp := spanDigits rest
          if fp.1.isEmpty then none
          else some (ipart + (digitsToNat fp.1 : ℚ) / (10 : ℚ) ^ fp.1.length, fp.2)
        else some (ipart, c :: rest)
      | [] => some (ipart, [])
    match fracCont with
    | none => none
    | some (q1, l3) =>
      match parseExpPart l3 with
      | none => none
      | some (e, l4) =>
        let q2 := applyExp q1 e
        some (if negRest.1 then -q2 else q2, l4)

/-- Consume the exact characters `cs` from the input. -/
def expectLit : List Char → List Char → Option (List Char)
  | [], l => some l
  | _ :: _, [] => none
  | c :: cs, d :: l => if c = d then expectLit cs l else none

mutual

/-- Fuel-indexed JSON value parser. -/
def parseValue : Nat → List Char → Option (Json × List Char)
  | 0, _ => none
  | fuel + 1, l =>
    match skipWs l with
    | [] => none
    | c :: rest =>
      if c = 'n' then (expectLit ['u', 'l', 'l'] rest).map (fun r => (Json.null, r))
      else if c = 't' then (expectLit ['r', 'u', 'e'] rest).map (fun r => (Json.bool true, r))
      else if c = 'f' then (expectLit ['a', 'l', 's', 'e'] rest).map (fun r => (Json.bool false, r))
      else if c = quoteChar then
        (parseStringBody rest).map (fun p => (Json.str (String.mk p.1), p.2))
      else if c = lbraceChar then
        match skipWs rest with
        | [] => none
        | d :: rest2 =>
          if d = rbraceChar then some (Json.obj [], rest2)
          else (parseMembers fuel (d :: rest2)).map (fun p => (Json.obj p.1, p.2))
      else if c = '[' then
        match skipWs rest with
        | [] => none
        | d :: rest2 =>
          if d = ']' then some (Json.arr [], rest2)
          else (parseElems fuel (d :: rest2)).map (fun p => (Json.arr p.1, p.2))
      else (parseNumber (c :: rest)).map (fun p => (Json.num p.1, p.2))

/-- One-or-more `"key": value` members, consuming the closing brace. -/
def parseMembers : Nat → List Char → Option (List (String × Json) × List Char)
  | 0, _ => none
  | fuel + 1, l =>
    match skipWs l with
    | [] => none
    | c :: rest =>
      if c = quoteChar then
        match parseStringBody rest with
        | none => none
        | some (key, r1) =>
          match skipWs r1 with
          | [] => none
          | d :: r2 =>
            if d = ':' then
              match parseValue fuel r2 with
              | none => none
              | some (v, r3) =>
                match skipWs r3 with
                | [] => none
                | e :: r4 =>
                  if e = ',' then
                    match parseMembers fuel r4 with
                    | none => none
                    | some (ms, r5) => some ((String.mk key, v) :: ms, r5)
                  else if e = rbraceChar then some ([(String.mk key, v)], r4)
                  else none
            else none
      else none

/-- One-or-more array elements, consuming the closing bracket. -/
def parseElems : Nat → List Char → Option (List Json × List Char)
  | 0, _ => none
  | fuel + 1, l =>
    match parseValue fuel l with
    | none => none
    | some (v, r1) =>
      match skipWs r1 with
      | [] => none
      | e :: r2 =>
        if e = ',' then
          match parseElems fuel r2 with
          | none => none
          | some (vs, r3) => some (v :: vs, r3)
        else if e = ']' then some (v :: [], r2)
        else none

end

/-- Modelled `json.Unmarshal` entry point: a whole document, allowing
surrounding whitespace, rejecting trailing garbage. -/
def parseJson (s : String) : Option Json :=
  match parseValue (2 * s.length + 2) s.toList with
  | some (v, rest) => if (skipWs rest).isEmpty then some v else none
  | none => none

/-! ### Struct decoding (the `json.Unmarshal` targets of the four variants) -/

/-- Last binding of `key` in an object, as Go's decoder lets later duplicate
keys overwrite earlier ones. -/
def lookupField (fields : List (String × Json)) (key : String) : Option Json :=
  fields.foldl (fun acc kv => if kv.1 = key then some kv.2 else acc) none

/-- Decode a `float64` struct field: absent or `null` gives the zero value,
a non-number is a decode error. -/
def getNumField (fields : List (String × Json)) (key : String) : Option ℚ :=
  match lookupField fields key with
  | none => some 0
  | some Json.null => some 0
  | some (Json.num q) => some q
  | some _ => none

/-- Decode a `string` struct field: absent or `null` gives `""`. -/
def getStrField (fields : List (String × Json)) (key : String) : Option String :=
  match lookupField fields key with
  | none => some ""
  | some Json.null => some ""
  | some (Json.str s) => some s
  | some _ => none

/-- `replayingStats` / `ReplayingStats` (src/main.go 72-77, src/unnamed/part_000 52-57). -/
structure ReplayingStats where
  bytesPerSecond : ℚ
  entriesBehindPrimary : ℚ
  entriesPerSecond : ℚ
  secondsUntilSynced : ℚ
deriving Repr, DecidableEq

/-- `snapshotStats` / `SnapshotStats` with five fields
(src/main.go 79-85, src/unnamed/part_000 59-65). -/
structure SnapshotStats where
  syncingPercent : ℚ
  secondsUntilSynced : ℚ
  bytesPerSnapshot : ℚ
  lastSnapshotBytes : ℚ
  lastSnapshotSyncSeconds : ℚ
deriving Repr, DecidableEq

/-- `mirrorStatus` / `MirrorStatus` (src/main.go 66-70, src/unnamed/part_000 46-50). -/
structure MirrorStatus where
  mode : String
  replayingStatus : Option ReplayingStats
  snapshotStatus : Option SnapshotStats
deriving Repr, DecidableEq

def decodeReplaying (fields : List (String × Json)) : Option ReplayingStats :=
  match getNumField fields "bytes_per_second", getNumField fields "entries_behind_primary",
      getNumField fields "entries_per_second", getNumField fields "seconds_until_synced" with
  | some a, some b, some c, some d => some ⟨a, b, c, d⟩
  | _, _, _, _ => none

def decodeSnapshot (fields : List (String × Json)) : Option SnapshotStats :=
  match getNumField fields "syncing_percent", getNumField fields "seconds_until_synced",
      getNumField fields "bytes_per_snapshot", getNumField fields "last_snapshot_bytes",
      getNumField fields "last_snapshot_sync_seconds" with
  | some a, some b, some c, some d, some e => some ⟨a, b, c, d, e⟩
  | _, _, _, _, _ => none

/-- Decode the `replaying_status` pointer field: absent or `null` is a nil
pointer, anything but an object is a decode error. -/
def getReplayingField (fields : List (String × Json)) : Option (Option ReplayingStats) :=
  match lookupField fields "replaying_status" with
  | none => some none
  | some Json.null => some none
  | some (Json.obj o) => (decodeReplaying o).map some
  | some _ => none

def getSnapshotField (fields : List (String × Json)) : Option (Option SnapshotStats) :=
  match lookupField fields "snapshot_status" with
  | none => some none
  | some Json.null => some none
  | some (Json.obj o) => (decodeSnapshot o).map some
  | some _ => none

/-- `json.Unmarshal(raw, &ms)` for the per-image detail status
(src/main.go 167-171, src/unnamed/part_000 137-141). -/
def parseMirrorStatus (s : String) : Option MirrorStatus :=
  match parseJson s with
  | some (Json.obj fields) =>
    match getStrField fields "mode", getReplayingField fields, getSnapshotField fields with
    | some m, some r, some sn => some ⟨m, r, sn⟩
    | _, _, _ => none
  | some Json.null => some ⟨"", none, none⟩
  | _ => none

def decodeStrElem : Json → Option String
  | Json.str s => some s
  | Json.null => some ""
  | _ => none

/-- `json.Unmarshal(raw, &images)` with `images : []string`
(src/main.go 154-158, the v0.1 `rbd ls` shape). -/
def parseImagesLs (s : String) : Option (List String) :=
  match parseJson s with
  | some (Json.arr items) => items.mapM decodeStrElem
  | some Json.null => some []
  | _ => none

/-- One entry of `PoolStatus.Images` (src/unnamed/part_000 39-44): `name`
plus the `mirror_image_mode` discriminator. -/
structure PoolImage where
  name : String
  mode : String
deriving Repr, DecidableEq

/-- `PoolStatus` of the mode-list shape (src/unnamed/part_000 39-44). -/
structure PoolStatusML where
  images : List PoolImage
deriving Repr, DecidableEq

def decodePoolImage : Json → Option PoolImage
  | Json.obj o =>
    match getStrField o "name", getStrField o "mirror_image_mode" with
    | some n, some m => some ⟨n, m⟩
    | _, _ => none
  | Json.null => some ⟨"", ""⟩
  | _ => none

/-- Decode a slice-of-structs field: absent or `null` is the empty (nil)
slice, an array decodes elementwise, anything else is a decode error. -/
def getListField {α : Type} (fields : List (String × Json)) (key : String)
    (dec : Json → Option α) : Option (List α) :=
  match lookupField fields key with
  | none => some []
  | some Json.null => some []
  | some (Json.arr items) => items.mapM dec
  | some _ => none

/-- `json.Unmarshal(raw, &ps)` for the mode-list pool status
(src/unnamed/part_000 122-126). -/
def parsePoolStatusML (s : String) : Option PoolStatusML :=
  match parseJson s with
  | some (Json.obj o) => (getListField o "images" decodePoolImage).map PoolStatusML.mk
  | some Json.null => some ⟨[]⟩
  | _ => none

/-- One peer site of the peer-description shape. `description` is declared at
src/unnamed/part_001 78-80. The fields `state` and `lastUpdate` are
Modelled from the spec: the transcribed `poolStatus` struct omits them, but
`Collect` reads `peer.State` (part_001 line 171) and `peer.LastUpdate`
(line 177), and spec §4.2 says the replication-state token and the
last-update timestamp come from the peer site; their JSON tags are taken as
`state` and `last_update` following the payload's naming convention. -/
structure PeerSite where
  description : String
  state : String
  lastUpdate : String
deriving Repr, DecidableEq

/-- One entry of the peer-shape `poolStatus.Images`
(src/unnamed/part_001 75-82, src/main.go 317-324). -/
structure PeerImage where
  name : String
  peerSites : List PeerSite
deriving Repr, DecidableEq

/-- Peer-description `poolStatus` (src/unnamed/part_001 75-82). -/
structure PoolStatusPeer where
  images : List PeerImage
deriving Repr, DecidableEq

def decodePeerSite : Json → Option PeerSite
  | Json.obj o =>
    match getStrField o "description", getStrField o "state", getStrField o "last_update" with
    | some d, some st, some lu => some ⟨d, st, lu⟩
    | _, _, _ => none
  | Json.null => some ⟨"", "", ""⟩
  | _ => none

def decodePeerImage : Json → Option PeerImage
  | Json.obj o =>
    match getStrField o "name", getListField o "peer_sites" decodePeerSite with
    | some n, some sites => some ⟨n, sites⟩
    | _, _ => none
  | Json.null => some ⟨"", []⟩
  | _ => none

/-- `json.Unmarshal(raw, &ps)` for the peer-description pool status
(src/unnamed/part_001 136-140, src/main.go 372-376). -/
def parsePoolStatusPeer (s : String) : Option PoolStatusPeer :=
  match parseJson s with
  | some (Json.obj o) => (getListField o "images" decodePeerImage).map PoolStatusPeer.mk
  | some Json.null => some ⟨[]⟩
  | _ => none

/-- `snapshotStats` of the peer-description shape, four fields
(src/unnamed/part_001 84-89, src/main.go 326-331). -/
structure SnapshotStats4 where
  bytesPerSecond : ℚ
  bytesPerSnapshot : ℚ
  lastSnapshotBytes : ℚ
  lastSnapshotSyncSeconds : ℚ
deriving Repr, DecidableEq

/-- `json.Unmarshal([]byte(desc[idx:]), &stats)` for the embedded fragment
(src/unnamed/part_001 152-158, src/main.go 387-393). -/
def parseSnapshotStats4 (s : String) : Option SnapshotStats4 :=
  match parseJson s with
  | some (Json.obj o) =>
    match getNumField o "bytes_per_second", getNumField o "bytes_per_snapshot",
        getNumField o "last_snapshot_bytes", getNumField o "last_snapshot_sync_seconds" with
    | some a, some b, some c, some d => some ⟨a, b, c, d⟩
    | _, _, _, _ => none
  | some Json.null => some ⟨0, 0, 0, 0⟩
  | _ => none

/-! ### String helpers used by the peer-description collector -/

/-- `strings.Index(desc, "\x7b")` followed by the slice `desc[idx:]`
(src/unnamed/part_001 148-151, src/main.go 383-386): the suffix of the
description starting at its first opening brace, `none` when there is
none. -/
def braceSuffix : List Char → Option (List Char)
  | [] => none
  | c :: rest => if c = lbraceChar then some (c :: rest) else braceSuffix rest

def firstBraceSplit (s : String) : Option String :=
  (braceSuffix s.toList).map String.mk

/-- `strings.Contains(s, sub)` (src/unnamed/part_001 171). -/
def strContainsAux (needle : List Char) : List Char → Bool
  | [] => needle.isEmpty
  | c :: rest => needle.isPrefixOf (c :: rest) || strContainsAux needle rest

def strContains (s sub : String) : Bool :=
  strContainsAux sub.toList s.toList

/-! ### `time.Parse("2006-01-02 15:04:05", ...)` and `Time.Unix`
(src/unnamed/part_001 177-178) -/

/-- A wall-clock time parsed from the fixed layout; no zone, so UTC. -/
structure DateTime where
  year : Nat
  month : Nat
  day : Nat
  hour : Nat
  minute : Nat
  second : Nat
deriving Repr, DecidableEq

def isLeapYear (y : Nat) : Bool :=
  y % 4 = 0 && (y % 100 != 0 || y % 400 = 0)

def daysInMonth (y m : Nat) : Nat :=
  if m = 2 then (if isLeapYear y then 29 else 28)
  else if m = 4 ∨ m = 6 ∨ m = 9 ∨ m = 11 then 30
  else 31

def readDigit (c : Char) : Option Nat :=
  if isDigitChar c then some (digitVal c) else none

/-- Exactly two digits, as the zero-padded layout fields require. -/
def read2 : List Char → Option (Nat × List Char)
  | a :: b :: rest =>
    match readDigit a, readDigit b with
    | some x, some y => some (x * 10 + y, rest)
    | _, _ => none
  | _ => none

/-- Exactly four digits, for the `2006` year field. -/
def read4 : List Char → Option (Nat × List Char)
  | a :: b :: c :: d :: rest =>
    match readDigit a, readDigit b, readDigit c, readDigit d with
    | some w, some x, some y, some z => some (((w * 10 + x) * 10 + y) * 10 + z, rest)
    | _, _, _, _ => none
  | _ => none

def expectCh (c : Char) : List Char → Option (List Char)
  | d :: rest => if d = c then some rest else none
  | [] => none

/-- What may follow the seconds: nothing, or (as Go's `Parse` allows even
when the layout has no fractional second) a period or comma plus one or more
digits, which are truncated away by `Unix()`. -/
def fracRest : List Char → Bool
  | [] => true
  | c :: d :: rest =>
    (c = '.' || c = ',') && isDigitChar d && (spanDigits (d :: rest)).2.isEmpty
  | _ :: [] => false

/-- One `<separator><two digits>` step of the fixed layout, pushing the
parsed field onto an accumulator. -/
def stepDT (sep : Char) (st : Option (List Nat × List Char)) :
    Option (List Nat × List Char) :=
  match st with
  | none => none
  | some (acc, l) =>
    match expectCh sep l with
    | none => none
    | some l1 =>
      match read2 l1 with
      | none => none
      | some (v, l2) => some (v :: acc, l2)

/-- `time.Parse("2006-01-02 15:04:05", s)`, including Go's range validation
of month, day-of-month, hour, minute and second: a four-digit year, then
the five two-digit fields each preceded by its literal separator. -/
def parseDateTime (s : String) : Option DateTime :=
  match read4 s.toList with
  | none => none
  | some (y, r0) =>
    match stepDT ':' (stepDT ':' (stepDT ' ' (stepDT '-' (stepDT '-' (some ([], r0)))))) with
    | some (sec :: mi :: h :: d :: mo :: [], r11) =>
      if fracRest r11 = true ∧ 1 ≤ mo ∧ mo ≤ 12 ∧ 1 ≤ d ∧ d ≤ daysInMonth y mo ∧
          h ≤ 23 ∧ mi ≤ 59 ∧ sec ≤ 59 then
        some ⟨y, mo, d, h, mi, sec⟩
      else none
    | _ => none

/-- Days from 1970-01-01 to the given civil date (proleptic Gregorian),
the standard era-based computation backing `Time.Unix`. -/
def daysFromCivil (y m d : Nat) : Int :=
  let ys : Int := if m ≤ 2 then (y : Int) - 1 else (y : Int)
  let era : Int := Int.fdiv ys 400
  let yoe : Int := ys - era * 400
  let mShift : Int := if 2 < m then (m : Int) - 3 else (m : Int) + 9
  let doy : Int := (153 * mShift + 2) / 5 + (d : Int) - 1
  let doe : Int := yoe * 365 + yoe / 4 - yoe / 100 + doy
  era * 146097 + doe - 719468

/-- `t.Unix()` for a UTC wall-clock time. -/
def toUnix (t : DateTime) : Int :=
  daysFromCivil t.year t.month t.day * 86400 +
    (t.hour : Int) * 3600 + (t.minute : Int) * 60 + (t.second : Int)

/-! ### Metric schema (construction-time descriptor names) -/

/-- An emitted sample: `MustNewConstMetric(desc, GaugeValue, value, labels...)`
recorded as the descriptor's metric name, the label values in the order
passed, and the gauge value. -/
structure Sample where
  name : String
  labelValues : List String
  value : ℚ
deriving Repr, DecidableEq

/-- The build-time metric name root `MetricPrefix` (default `ceph_vm_`). -/
def mpfx : String := "ceph_vm_"

def nmJournalSpeed : String := mpfx ++ "journal_speed_mib_per_sec"

def nmJournalEntriesBehind : String := mpfx ++ "journal_entries_behind_primary"

def nmJournalEntriesPerSec : String := mpfx ++ "journal_entries_per_sec"

def nmJournalSecondsUntilSynced : String := mpfx ++ "journal_seconds_until_synced"

def nmSnapSyncPercent : String := mpfx ++ "snapshot_sync_percent"

def nmSnapSpeed : String := mpfx ++ "snapshot_speed_mib_per_sec"

def nmSnapSecondsUntilSynced : String := mpfx ++ "snapshot_seconds_until_synced"

def nmSnapBytesPerSnapshot : String := mpfx ++ "snapshot_bytes_per_snapshot_mib"

def nmSnapLastSnapshotBytes : String := mpfx ++ "snapshot_last_snapshot_bytes_mib"

def nmSnapLastSnapshotSyncSecs : String := mpfx ++ "snapshot_last_snapshot_sync_seconds"

def nmSnapReplicationState : String := mpfx ++ "snapshot_replication_state"

def nmSnapLastUpdateTs : String := mpfx ++ "snapshot_last_update_timestamp"

/-! ### Emission

The per-scrape `for` loop of each `Collect` is modelled by `collectLoop`,
and each loop body by an `emitImage...` function returning the samples that
iteration sends to `ch` (in order). `RunRBD` results are the `Option String`
arguments: the pool-level payload is `poolRaw`, per-image detail payloads
come from `fetchImage` keyed by image name. -/

/-- Sequential per-resource loop: each iteration appends its samples. -/
def collectLoop {α : Type} (f : α → List Sample) : List α → List Sample
  | [] => []
  | x :: rest => f x ++ collectLoop f rest

/-- The `case "journal"` emission with a non-nil `ReplayingStatus`
(src/unnamed/part_000 148-151, src/main.go 184-187): four gauges, speed
converted to MiB/s. -/
def emitJournal (lbl : List String) (rs : ReplayingStats) : List Sample :=
  [⟨nmJournalSpeed, lbl, rs.bytesPerSecond / 1048576⟩,
   ⟨nmJournalEntriesBehind, lbl, rs.entriesBehindPrimary⟩,
   ⟨nmJournalEntriesPerSec, lbl, rs.entriesPerSecond⟩,
   ⟨nmJournalSecondsUntilSynced, lbl, rs.secondsUntilSynced⟩]

/-- The `case "snapshot"` emission with a non-nil `SnapshotStatus`
(src/unnamed/part_000 156-165, src/main.go 193-202): six gauges, with the
guarded speed computation. -/
def emitSnapshot6 (lbl : List String) (ss : SnapshotStats) : List Sample :=
  let speed : ℚ :=
    if 0 < ss.lastSnapshotSyncSeconds then
      (ss.lastSnapshotBytes / ss.lastSnapshotSyncSeconds) / 1048576
    else 0
  [⟨nmSnapSyncPercent, lbl, ss.syncingPercent⟩,
   ⟨nmSnapSpeed, lbl, speed⟩,
   ⟨nmSnapSecondsUntilSynced, lbl, ss.secondsUntilSynced⟩,
   ⟨nmSnapBytesPerSnapshot, lbl, ss.bytesPerSnapshot / 1048576⟩,
   ⟨nmSnapLastSnapshotBytes, lbl, ss.lastSnapshotBytes / 1048576⟩,
   ⟨nmSnapLastSnapshotSyncSecs, lbl, ss.lastSnapshotSyncSeconds⟩]

/-- The `switch ms.Mode` over a decoded detail status
(src/unnamed/part_000 143-166, src/main.go 179-203; in main.go the switch
is preceded by an equivalent explicit filter on the same two mode strings,
line 173, absorbed by the final `else` here). A nil sub-status for the
declared mode means `continue`: no samples. -/
def emitParsed (lbl : List String) (ms : MirrorStatus) : List Sample :=
  if ms.mode = "journal" then
    match ms.replayingStatus with
    | none => []
    | some rs => emitJournal lbl rs
  else if ms.mode = "snapshot" then
    match ms.snapshotStatus with
    | none => []
    | some ss => emitSnapshot6 lbl ss
  else []

/-- Loop body of the mode-list collector (src/unnamed/part_000 128-167):
skip resources whose pool-level `mirror_image_mode` is neither `journal`
nor `snapshot`; otherwise fetch the detail status, skip on fetch or decode
failure, then emit by the detail status's own mode. Labels `[pool, image]`
(label names `{pool, image}`, part_000 line 82). -/
def emitImageModeList (pool : String) (fetchImage : String → Option String)
    (img : PoolImage) : List Sample :=
  if img.mode ≠ "journal" ∧ img.mode ≠ "snapshot" then []
  else
    match (fetchImage img.name).bind parseMirrorStatus with
    | none => []
    | some ms => emitParsed [pool, img.name] ms

/-- `mirrorCollector.Collect` of the mode-list variant
(src/unnamed/part_000 112-168): a pool-level fetch or decode failure
returns with nothing emitted, otherwise the per-image loop runs. -/
def collectModeList (pool : String) (poolRaw : Option String)
    (fetchImage : String → Option String) : List Sample :=
  match poolRaw.bind parsePoolStatusML with
  | none => []
  | some ps => collectLoop (emitImageModeList pool fetchImage) ps.images

/-- Loop body of the v0.1 `rbd ls` collector (src/main.go 160-204): fetch
the detail status for each listed image name, skip on fetch or decode
failure, then emit by mode. Labels `[cluster, pool, image]` (label names
`{cluster, pool, image}`, main.go line 109). -/
def emitImageLs (cluster pool : String) (fetchImage : String → Option String)
    (img : String) : List Sample :=
  match (fetchImage img).bind parseMirrorStatus with
  | none => []
  | some ms => emitParsed [cluster, pool, img] ms

/-- `mirrorCollector.Collect` of the v0.1 variant (src/main.go 144-205). -/
def collectLs (cluster pool : String) (poolRaw : Option String)
    (fetchImage : String → Option String) : List Sample :=
  match poolRaw.bind parseImagesLs with
  | none => []
  | some imgs => collectLoop (emitImageLs cluster pool fetchImage) imgs

/-- The four snapshot gauges of the peer-description shape
(src/unnamed/part_001 160-167, src/main.go 395-402), with the guarded
speed computation. -/
def emitSnapshot4 (lbl : List String) (st : SnapshotStats4) : List Sample :=
  let speed : ℚ :=
    if 0 < st.lastSnapshotSyncSeconds then
      (st.lastSnapshotBytes / st.lastSnapshotSyncSeconds) / 1048576
    else 0
  [⟨nmSnapSpeed, lbl, speed⟩,
   ⟨nmSnapBytesPerSnapshot, lbl, st.bytesPerSnapshot / 1048576⟩,
   ⟨nmSnapLastSnapshotBytes, lbl, st.lastSnapshotBytes / 1048576⟩,
   ⟨nmSnapLastSnapshotSyncSecs, lbl, st.lastSnapshotSyncSeconds⟩]

/-- The replication-state gauge (src/unnamed/part_001 169-174): value 1
exactly when the peer state contains `replaying`, with the state string
appended as the extra `state` label value. -/
def stateSample (lbl : List String) (peer : PeerSite) : Sample :=
  ⟨nmSnapReplicationState, lbl ++ [peer.state],
   if strContains peer.state "replaying" then 1 else 0⟩

/-- The last-update gauge (src/unnamed/part_001 176-179): emitted only when
the fixed-layout parse of `peer.LastUpdate` succeeds, carrying the epoch
seconds. -/
def tsSamples (lbl : List String) (peer : PeerSite) : List Sample :=
  match parseDateTime peer.lastUpdate with
  | some t => [⟨nmSnapLastUpdateTs, lbl, ((toUnix t : Int) : ℚ)⟩]
  | none => []

/-- Emission for one peer-shape resource once its embedded stats fragment
has decoded (src/unnamed/part_001 159-179). -/
def emitPeerParsed (pool name : String) (peer : PeerSite) (st : SnapshotStats4) :
    List Sample :=
  emitSnapshot4 [pool, name] st ++ [stateSample [pool, name] peer] ++
    tsSamples [pool, name] peer

/-- Loop body of the v0.1.18 peer-description collector
(src/unnamed/part_001 142-180): skip when there is no peer site, when the
first peer site's description has no opening brace, or when the fragment
from the first brace fails to decode; otherwise emit from the fragment and
the first peer site. Only `img.PeerSites[0]` is consulted. -/
def emitImagePeer (pool : String) (img : PeerImage) : List Sample :=
  match img.peerSites with
  | [] => []
  | peer :: _ =>
    match firstBraceSplit peer.description with
    | none => []
    | some frag =>
      match parseSnapshotStats4 frag with
      | none => []
      | some st => emitPeerParsed pool img.name peer st

/-- `mirrorCollector.Collect` of the v0.1.18 peer-description variant
(src/unnamed/part_001 127-181). There is no per-image fetch: the whole
scrape reads only the pool-level payload. -/
def collectPeer (pool : String) (poolRaw : Option String) : List Sample :=
  match poolRaw.bind parsePoolStatusPeer with
  | none => []
  | some ps => collectLoop (emitImagePeer pool) ps.images

/-- Loop body of the v0.1.17 peer-description collector
(src/main.go 378-403): as v0.1.18 but emitting only the four snapshot
gauges. -/
def emitImagePeer17 (pool : String) (img : PeerImage) : List Sample :=
  match img.peerSites with
  | [] => []
  | peer :: _ =>
    match firstBraceSplit peer.description with
    | none => []
    | some frag =>
      match parseSnapshotStats4 frag with
      | none => []
      | some st => emitSnapshot4 [pool, img.name] st

/-- `mirrorCollector.Collect` of the v0.1.17 variant (src/main.go 363-404). -/
def collectPeer17 (pool : String) (poolRaw : Option String) : List Sample :=
  match poolRaw.bind parsePoolStatusPeer with
  | none => []
  | some ps => collectLoop (emitImagePeer17 pool) ps.images

/-! ### Concrete payloads for the spec's scenarios and for witnesses -/

/-- Spec §8 round-trip scenario: pool-level payload listing exactly the
resource `vm1` with mode `journal`, in the mode-list shape's wire format. -/
def poolJsonC6 : String :=
  "\x7b\"images\":[\x7b\"name\":\"vm1\",\"mirror_image_mode\":\"journal\"\x7d]\x7d"

/-- Spec §8 round-trip scenario: the detail-status payload, verbatim. -/
def detailJsonC6 : String :=
  "\x7b\"mode\":\"journal\",\"replaying_status\":\x7b\"bytes_per_second\":2097152,\"entries_behind_primary\":3,\"entries_per_second\":10,\"seconds_until_synced\":5\x7d\x7d"

/-- Per-image fetch serving the round-trip detail payload for `vm1`. -/
def fetchC6 : String → Option String :=
  fun n => if n = "vm1" then some detailJsonC6 else none

/-- Spec §8 peer-description scenario: the free-text description with the
embedded stats fragment, verbatim. -/
def descC7 : String :=
  "some text \x7b\"bytes_per_second\":0,\"bytes_per_snapshot\":1048576,\"last_snapshot_bytes\":2097152,\"last_snapshot_sync_seconds\":2\x7d"

/-- A small detail payload exercising missing-field defaulting. -/
def detailJsonW1 : String :=
  "\x7b\"mode\":\"journal\",\"replaying_status\":\x7b\"bytes_per_second\":1048576\x7d\x7d"

def fetchW1 : String → Option String :=
  fun n => if n = "a" then some detailJsonW1 else none

/-- Pool payload with three images: `a` (journal), `b` (snapshot, whose
detail fetch will fail), `c` (disabled). -/
def poolJsonW4 : String :=
  "\x7b\"images\":[\x7b\"name\":\"a\",\"mirror_image_mode\":\"journal\"\x7d,\x7b\"name\":\"b\",\"mirror_image_mode\":\"snapshot\"\x7d,\x7b\"name\":\"c\",\"mirror_image_mode\":\"disabled\"\x7d]\x7d"

/-- Detail fetch that succeeds only for image `a`. -/
def fetchW4 : String → Option String :=
  fun n => if n = "a" then some detailJsonW1 else none

/-- A description whose fragment is the empty object. -/
def descW8 : String := "x \x7b\x7d"

/-- Peer-shape pool payload with two images, the first of which has a
braceless description. -/
def poolJsonW7 : String :=
  "\x7b\"images\":[\x7b\"name\":\"u\",\"peer_sites\":[\x7b\"description\":\"plain text\"\x7d]\x7d,\x7b\"name\":\"v\",\"peer_sites\":[\x7b\"description\":\"x \x7b\x7d\"\x7d]\x7d]\x7d"

/-! ## General lemmas -/

theorem collectLoop_nil {α : Type} (f : α → List Sample) : collectLoop f [] = [] := rfl

theorem collectLoop_cons {α : Type} (f : α → List Sample) (x : α) (l : List α) :
    collectLoop f (x :: l) = f x ++ collectLoop f l := rfl

theorem collectLoop_append {α : Type} (f : α → List Sample) (l₁ l₂ : List α) :
    collectLoop f (l₁ ++ l₂) = collectLoop f l₁ ++ collectLoop f l₂ := by
  induction l₁ with
  | nil => rfl
  | cons x xs ih => simp [collectLoop_cons, ih]

/-! ## Claim theorems -/

/-- Claim C1: for every resource whose detail status has mode `journal` and
a non-nil replaying-status, the collector emits exactly the 4 journal
metrics — speed, entries-behind-primary, entries-per-second,
seconds-until-synced — labeled with pool and image in the mode-list
variant, and with cluster, pool and image in the cluster-scoped v0.1
variant, with speed = bytes_per_second / 1048576 and the other three
fields passed through unconverted. (`helig` records that the resource
passed the pool-level mode filter of the mode-list variant.) -/
theorem c1_journal_full_set (pool cluster imgName raw : String)
    (fetchImage : String → Option String) (img : PoolImage)
    (ms : MirrorStatus) (rs : ReplayingStats)
    (hfetch : fetchImage img.name = some raw)
    (hparse : parseMirrorStatus raw = some ms)
    (hmode : ms.mode = "journal")
    (hrs : ms.replayingStatus = some rs)
    (helig : img.mode = "journal" ∨ img.mode = "snapshot")
    (hfetch2 : fetchImage imgName = some raw) :
    emitImageModeList pool fetchImage img =
      [⟨nmJournalSpeed, [pool, img.name], rs.bytesPerSecond / 1048576⟩,
       ⟨nmJournalEntriesBehind, [pool, img.name], rs.entriesBehindPrimary⟩,
       ⟨nmJournalEntriesPerSec, [pool, img.name], rs.entriesPerSecond⟩,
       ⟨nmJournalSecondsUntilSynced, [pool, img.name], rs.secondsUntilSynced⟩] ∧
    emitImageLs cluster pool fetchImage imgName =
      [⟨nmJournalSpeed, [cluster, pool, imgName], rs.bytesPerSecond / 1048576⟩,
       ⟨nmJournalEntriesBehind, [cluster, pool, imgName], rs.entriesBehindPrimary⟩,
       ⟨nmJournalEntriesPerSec, [cluster, pool, imgName], rs.entriesPerSecond⟩,
       ⟨nmJournalSecondsUntilSynced, [cluster, pool, imgName], rs.secondsUntilSynced⟩] := by
  have hne : ¬(img.mode ≠ "journal" ∧ img.mode ≠ "snapshot") := by
    rcases helig with h | h <;> simp [h]
  constructor
  · rw [emitImageModeList, if_neg hne, hfetch]
    simp [Option.bind, hparse, emitParsed, hmode, hrs, emitJournal]
  · rw [emitImageLs, hfetch2]
    simp [Option.bind, hparse, emitParsed, hmode, hrs, emitJournal]

/-- Witness for C1 at a concrete journal resource whose detail payload sets
only `bytes_per_second` (1 MiB/s), the other fields taking Go's zero
value. -/
theorem c1_journal_full_set_witness :
    emitImageModeList "p" fetchW1 ⟨"a", "journal"⟩ =
      [⟨nmJournalSpeed, ["p", "a"], (1048576 : ℚ) / 1048576⟩,
       ⟨nmJournalEntriesBehind, ["p", "a"], 0⟩,
       ⟨nmJournalEntriesPerSec, ["p", "a"], 0⟩,
       ⟨nmJournalSecondsUntilSynced, ["p", "a"], 0⟩] ∧
    emitImageLs "c" "p" fetchW1 "a" =
      [⟨nmJournalSpeed, ["c", "p", "a"], (1048576 : ℚ) / 1048576⟩,
       ⟨nmJournalEntriesBehind, ["c", "p", "a"], 0⟩,
       ⟨nmJournalEntriesPerSec, ["c", "p", "a"], 0⟩,
       ⟨nmJournalSecondsUntilSynced, ["c", "p", "a"], 0⟩] :=
  c1_journal_full_set "p" "c" "a" detailJsonW1 fetchW1 ⟨"a", "journal"⟩
    ⟨"journal", some ⟨1048576, 0, 0, 0⟩, none⟩ ⟨1048576, 0, 0, 0⟩
    rfl (by with_unfolding_all rfl) rfl rfl (Or.inl rfl) rfl

/-- Claim C3: a pool-level fetch failure, or a pool-level payload that fails
to decode, yields zero emitted samples for the scrape in every collector
variant (the `Collect` functions are total, so no crash is modelled). -/
theorem c3_pool_failure_zero_metrics :
    (∀ cluster pool f, collectLs cluster pool none f = []) ∧
    (∀ pool f, collectModeList pool none f = []) ∧
    (∀ pool, collectPeer pool none = []) ∧
    (∀ pool, collectPeer17 pool none = []) ∧
    (∀ cluster pool f raw, parseImagesLs raw = none →
      collectLs cluster pool (some raw) f = []) ∧
    (∀ pool f raw, parsePoolStatusML raw = none →
      collectModeList pool (some raw) f = []) ∧
    (∀ pool raw, parsePoolStatusPeer raw = none →
      collectPeer pool (some raw) = []) ∧
    (∀ pool raw, parsePoolStatusPeer raw = none →
      collectPeer17 pool (some raw) = []) := by
  refine ⟨fun _ _ _ => rfl, fun _ _ => rfl, fun _ => rfl, fun _ => rfl, ?_, ?_, ?_, ?_⟩
  · intro cluster pool f raw h
    simp [collectLs, Option.bind, h]
  · intro pool f raw h
    simp [collectModeList, Option.bind, h]
  · intro pool raw h
    simp [collectPeer, Option.bind, h]
  · intro pool raw h
    simp [collectPeer17, Option.bind, h]

/-- Witness for C3 at the non-JSON pool payload `oops`. -/
theorem c3_pool_failure_zero_metrics_witness :
    collectLs "c" "p" (some "oops") (fun _ => none) = [] ∧
    collectModeList "p" (some "oops") (fun _ => none) = [] ∧
    collectPeer "p" (some "oops") = [] ∧
    collectPeer17 "p" (some "oops") = [] :=
  ⟨c3_pool_failure_zero_metrics.2.2.2.2.1 "c" "p" (fun _ => none) "oops"
      (by with_unfolding_all rfl),
   c3_pool_failure_zero_metrics.2.2.2.2.2.1 "p" (fun _ => none) "oops"
      (by with_unfolding_all rfl),
   c3_pool_failure_zero_metrics.2.2.2.2.2.2.1 "p" "oops" (by with_unfolding_all rfl),
   c3_pool_failure_zero_metrics.2.2.2.2.2.2.2 "p" "oops" (by with_unfolding_all rfl)⟩

/-- Claim C2: in every variant that emits snapshot metrics (the six-gauge
mode-list/v0.1 emission, the four-gauge peer emission, and the full
peer-resource emission), the emitted snapshot speed sample is exactly
`last_snapshot_bytes / last_snapshot_sync_seconds / 1048576` when the sync
duration is positive and exactly 0 otherwise; in particular a non-positive
duration forces the value 0 (the source only evaluates the division inside
the positive guard). -/
theorem c2_snapshot_speed_guard (lbl : List String) (ss : SnapshotStats)
    (pool name : String) (peer : PeerSite) (st : SnapshotStats4) :
    ((emitSnapshot6 lbl ss).filter (fun s => s.name == nmSnapSpeed) =
      [⟨nmSnapSpeed, lbl,
        if 0 < ss.lastSnapshotSyncSeconds then
          (ss.lastSnapshotBytes / ss.lastSnapshotSyncSeconds) / 1048576
        else 0⟩]) ∧
    ((emitSnapshot4 lbl st).filter (fun s => s.name == nmSnapSpeed) =
      [⟨nmSnapSpeed, lbl,
        if 0 < st.lastSnapshotSyncSeconds then
          (st.lastSnapshotBytes / st.lastSnapshotSyncSeconds) / 1048576
        else 0⟩]) ∧
    ((emitPeerParsed pool name peer st).filter (fun s => s.name == nmSnapSpeed) =
      [⟨nmSnapSpeed, [pool, name],
        if 0 < st.lastSnapshotSyncSeconds then
          (st.lastSnapshotBytes / st.lastSnapshotSyncSeconds) / 1048576
        else 0⟩]) ∧
    (ss.lastSnapshotSyncSeconds ≤ 0 →
      (emitSnapshot6 lbl ss).filter (fun s => s.name == nmSnapSpeed) =
        [⟨nmSnapSpeed, lbl, 0⟩]) ∧
    (st.lastSnapshotSyncSeconds ≤ 0 →
      (emitPeerParsed pool name peer st).filter (fun s => s.name == nmSnapSpeed) =
        [⟨nmSnapSpeed, [pool, name], 0⟩]) := by
  have h6 : (emitSnapshot6 lbl ss).filter (fun s => s.name == nmSnapSpeed) =
      [⟨nmSnapSpeed, lbl,
        if 0 < ss.lastSnapshotSyncSeconds then
          (ss.lastSnapshotBytes / ss.lastSnapshotSyncSeconds) / 1048576
        else 0⟩] := rfl
  have h4 : (emitSnapshot4 lbl st).filter (fun s => s.name == nmSnapSpeed) =
      [⟨nmSnapSpeed, lbl,
        if 0 < st.lastSnapshotSyncSeconds then
          (st.lastSnapshotBytes / st.lastSnapshotSyncSeconds) / 1048576
        else 0⟩] := rfl
  have hp : (emitPeerParsed pool name peer st).filter (fun s => s.name == nmSnapSpeed) =
      [⟨nmSnapSpeed, [pool, name],
        if 0 < st.lastSnapshotSyncSeconds then
          (st.lastSnapshotBytes / st.lastSnapshotSyncSeconds) / 1048576
        else 0⟩] := by
    rw [emitPeerParsed, List.filter_append, List.filter_append]
    rw [show (emitSnapshot4 [pool, name] st).filter (fun s => s.name == nmSnapSpeed) =
      [⟨nmSnapSpeed, [pool, name],
        if 0 < st.lastSnapshotSyncSeconds then
          (st.lastSnapshotBytes / st.lastSnapshotSyncSeconds) / 1048576
        else 0⟩] from rfl]
    rw [show ([stateSample [pool, name] peer]).filter (fun s => s.name == nmSnapSpeed) =
      [] from rfl]
    rw [show (tsSamples [pool, name] peer).filter (fun s => s.name == nmSnapSpeed) =
      [] from ?_]
    · simp
    · rw [tsSamples]
      cases parseDateTime peer.lastUpdate <;> rfl
  refine ⟨h6, h4, hp, ?_, ?_⟩
  · intro hle
    rw [h6, if_neg (not_lt.mpr hle)]
  · intro hle
    rw [hp, if_neg (not_lt.mpr hle)]

/-- Witness for C2: a snapshot status with a zero sync duration yields
speed exactly 0, one with duration 2 and 4 MiB transferred yields 2. -/
theorem c2_snapshot_speed_guard_witness :
    ((emitSnapshot6 ["p", "a"] ⟨50, 7, 1048576, 4194304, 0⟩).filter
        (fun s => s.name == nmSnapSpeed) = [⟨nmSnapSpeed, ["p", "a"], 0⟩]) ∧
    ((emitSnapshot6 ["p", "a"] ⟨50, 7, 1048576, 4194304, 2⟩).filter
        (fun s => s.name == nmSnapSpeed) =
      [⟨nmSnapSpeed, ["p", "a"], (4194304 : ℚ) / 2 / 1048576⟩]) ∧
    ((emitPeerParsed "p" "b" ⟨"", "", ""⟩ ⟨0, 0, 6291456, -3⟩).filter
        (fun s => s.name == nmSnapSpeed) = [⟨nmSnapSpeed, ["p", "b"], 0⟩]) := by
  refine ⟨?_, ?_, ?_⟩
  · exact (c2_snapshot_speed_guard ["p", "a"] ⟨50, 7, 1048576, 4194304, 0⟩
      "p" "b" ⟨"", "", ""⟩ ⟨0, 0, 6291456, -3⟩).2.2.2.1 (by norm_num)
  · have h := (c2_snapshot_speed_guard ["p", "a"] ⟨50, 7, 1048576, 4194304, 2⟩
      "p" "b" ⟨"", "", ""⟩ ⟨0, 0, 6291456, -3⟩).1
    rw [h, if_pos (by norm_num)]
  · exact (c2_snapshot_speed_guard ["p", "a"] ⟨50, 7, 1048576, 4194304, 0⟩
      "p" "b" ⟨"", "", ""⟩ ⟨0, 0, 6291456, -3⟩).2.2.2.2 (by norm_num)

/-- Claim C4: in the mode-list variant, when one resource's detail fetch or
detail decode fails, that resource contributes nothing while the scrape is
exactly the concatenation of every other resource's emission — a
per-resource failure never aborts the scrape. -/
theorem c4_single_resource_failure (pool raw : String)
    (f : String → Option String) (ps : PoolStatusML)
    (pre post : List PoolImage) (bad : PoolImage)
    (hparse : parsePoolStatusML raw = some ps)
    (himgs : ps.images = pre ++ bad :: post)
    (hbad : (f bad.name).bind parseMirrorStatus = none) :
    collectModeList pool (some raw) f =
      collectLoop (emitImageModeList pool f) pre ++
        collectLoop (emitImageModeList pool f) post := by
  have hb : emitImageModeList pool f bad = [] := by
    rw [emitImageModeList]
    by_cases hm : bad.mode ≠ "journal" ∧ bad.mode ≠ "snapshot"
    · rw [if_pos hm]
    · rw [if_neg hm, hbad]
  rw [collectModeList]
  simp only [Option.bind, hparse]
  rw [himgs, collectLoop_append, collectLoop_cons, hb, List.nil_append]

set_option maxRecDepth 20000 in
/-- Witness for C4: pool `[a (journal), b (snapshot), c (disabled)]`, the
detail fetch failing for `b` and succeeding for `a`; the scrape still
carries `a`'s four journal samples (and `c` is mode-filtered out). -/
theorem c4_single_resource_failure_witness :
    collectModeList "p" (some poolJsonW4) fetchW4 =
      [⟨nmJournalSpeed, ["p", "a"], (1048576 : ℚ) / 1048576⟩,
       ⟨nmJournalEntriesBehind, ["p", "a"], 0⟩,
       ⟨nmJournalEntriesPerSec, ["p", "a"], 0⟩,
       ⟨nmJournalSecondsUntilSynced, ["p", "a"], 0⟩] := by
  have h := c4_single_resource_failure "p" poolJsonW4 fetchW4
    ⟨[⟨"a", "journal"⟩, ⟨"b", "snapshot"⟩, ⟨"c", "disabled"⟩]⟩
    [⟨"a", "journal"⟩] [⟨"c", "disabled"⟩] ⟨"b", "snapshot"⟩
    (by with_unfolding_all rfl) rfl rfl
  rw [h]
  with_unfolding_all rfl

/-- Claim C5: per resource and per variant the sample count is all-or-
nothing: a decoded detail status yields 0, 4 or 6 samples (journal with a
nil replaying status — stated with the explicit constructor — yields 0,
as does snapshot with a nil snapshot status); a mode-list or v0.1 resource
yields 0, 4 or 6; a v0.1.18 peer resource yields 0, 5 or 6 (state gauge
always present once the fragment decodes, timestamp gauge only when the
last-update string parses); a v0.1.17 peer resource yields 0 or 4. No
strict non-empty subset of a variant's set is ever emitted. -/
theorem c5_full_set_or_nothing :
    (∀ lbl ms, (emitParsed lbl ms).length = 0 ∨ (emitParsed lbl ms).length = 4 ∨
      (emitParsed lbl ms).length = 6) ∧
    (∀ lbl osnap, emitParsed lbl ⟨"journal", none, osnap⟩ = []) ∧
    (∀ lbl orep, emitParsed lbl ⟨"snapshot", orep, none⟩ = []) ∧
    (∀ pool f img, (emitImageModeList pool f img).length = 0 ∨
      (emitImageModeList pool f img).length = 4 ∨
      (emitImageModeList pool f img).length = 6) ∧
    (∀ cluster pool f n, (emitImageLs cluster pool f n).length = 0 ∨
      (emitImageLs cluster pool f n).length = 4 ∨
      (emitImageLs cluster pool f n).length = 6) ∧
    (∀ pool img, (emitImagePeer pool img).length = 0 ∨
      (emitImagePeer pool img).length = 5 ∨
      (emitImagePeer pool img).length = 6) ∧
    (∀ pool img, (emitImagePeer17 pool img).length = 0 ∨
      (emitImagePeer17 pool img).length = 4) := by
  have hparsed : ∀ lbl ms, (emitParsed lbl ms).length = 0 ∨
      (emitParsed lbl ms).length = 4 ∨ (emitParsed lbl ms).length = 6 := by
    intro lbl ms
    obtain ⟨m, orep, osnap⟩ := ms
    rw [emitParsed]
    by_cases h1 : m = "journal"
    · simp only [h1, if_true]
      cases orep with
      | none => simp
      | some rs => simp [emitJournal]
    · by_cases h2 : m = "snapshot"
      · simp only [h1, h2, if_false, if_true]
        cases osnap with
        | none => simp
        | some ss => simp [emitSnapshot6]
      · simp [h1, h2]
  have hpeerParsed : ∀ pool name peer st,
      (emitPeerParsed pool name peer st).length = 5 ∨
      (emitPeerParsed pool name peer st).length = 6 := by
    intro pool name peer st
    rw [emitPeerParsed, tsSamples]
    cases parseDateTime peer.lastUpdate <;>
      simp [emitSnapshot4]
  refine ⟨hparsed, fun lbl osnap => rfl, ?_, ?_, ?_, ?_, ?_⟩
  · intro lbl orep
    rw [emitParsed]
    simp
  · intro pool f img
    rw [emitImageModeList]
    by_cases hm : img.mode ≠ "journal" ∧ img.mode ≠ "snapshot"
    · rw [if_pos hm]
      simp
    · rw [if_neg hm]
      cases (f img.name).bind parseMirrorStatus with
      | none => simp
      | some ms => exact hparsed [pool, img.name] ms
  · intro cluster pool f n
    rw [emitImageLs]
    cases (f n).bind parseMirrorStatus with
    | none => simp
    | some ms => exact hparsed [cluster, pool, n] ms
  · intro pool img
    obtain ⟨name, sites⟩ := img
    cases sites with
    | nil => exact Or.inl rfl
    | cons peer rest =>
      simp only [emitImagePeer]
      split
      · exact Or.inl rfl
      · split
        · exact Or.inl rfl
        · rename_i frag hfrag st hst
          rcases hpeerParsed pool name peer st with h | h
          · exact Or.inr (Or.inl h)
          · exact Or.inr (Or.inr h)
  · intro pool img
    obtain ⟨name, sites⟩ := img
    cases sites with
    | nil => exact Or.inl rfl
    | cons peer rest =>
      simp only [emitImagePeer17]
      split
      · exact Or.inl rfl
      · split
        · exact Or.inl rfl
        · simp [emitSnapshot4]

set_option maxRecDepth 20000 in
/-- Claim C6: the spec's round-trip scenario. With the pool-status payload
listing exactly `vm1` with mode `journal` and the verbatim detail-status
payload, the mode-list collector emits the journal speed gauge with value
2097152 / 1048576 = 2 for image `vm1`, followed by the other three journal
gauges carrying 3, 10 and 5. -/
theorem c6_round_trip_scenario :
    collectModeList "pool1" (some poolJsonC6) fetchC6 =
      [⟨nmJournalSpeed, ["pool1", "vm1"], 2⟩,
       ⟨nmJournalEntriesBehind, ["pool1", "vm1"], 3⟩,
       ⟨nmJournalEntriesPerSec, ["pool1", "vm1"], 10⟩,
       ⟨nmJournalSecondsUntilSynced, ["pool1", "vm1"], 5⟩] := by
  with_unfolding_all rfl

set_option maxRecDepth 20000 in
/-- Claim C7: in the peer-description shape the stats come from the suffix
of the first peer site's description starting at its first opening brace —
`collectPeer` consumes only the pool-level payload, there is no per-image
fetch argument at all. A description with no brace contributes zero samples
(first conjunct) while the rest of the scrape continues (third conjunct,
stated for a braceless resource sitting between `pre` and `post`); on the
spec's example description the emitted snapshot speed is
2097152 / 2 / 1048576 = 1 (second conjunct). -/
theorem c7_peer_description_extraction :
    (∀ pool name st lu rest d, firstBraceSplit d = none →
      emitImagePeer pool ⟨name, ⟨d, st, lu⟩ :: rest⟩ = []) ∧
    ((emitImagePeer "p" ⟨"img", [⟨descC7, "", ""⟩]⟩).filter
        (fun s => s.name == nmSnapSpeed) = [⟨nmSnapSpeed, ["p", "img"], 1⟩]) ∧
    (∀ pool raw ps pre post name st lu d rest2,
      parsePoolStatusPeer raw = some ps →
      ps.images = pre ++ (⟨name, ⟨d, st, lu⟩ :: rest2⟩ : PeerImage) :: post →
      firstBraceSplit d = none →
      collectPeer pool (some raw) =
        collectLoop (emitImagePeer pool) pre ++
          collectLoop (emitImagePeer pool) post) := by
  have hnone : ∀ pool name st lu rest d, firstBraceSplit d = none →
      emitImagePeer pool ⟨name, ⟨d, st, lu⟩ :: rest⟩ = [] := by
    intro pool name st lu rest d hd
    simp only [emitImagePeer]
    rw [hd]
  refine ⟨hnone, by with_unfolding_all rfl, ?_⟩
  intro pool raw ps pre post name st lu d rest2 hparse himgs hd
  rw [collectPeer]
  simp only [Option.bind, hparse]
  rw [himgs, collectLoop_append, collectLoop_cons,
    hnone pool name st lu rest2 d hd, List.nil_append]

set_option maxRecDepth 20000 in
/-- Witness for C7's quantified parts: image `u` has the braceless
description `plain text` and contributes nothing, while the scrape goes on
to emit for image `v`, whose fragment is the empty object (all stats zero,
so speed 0 by the guard). -/
theorem c7_peer_description_extraction_witness :
    emitImagePeer "p" ⟨"u", [⟨"plain text", "", ""⟩]⟩ = [] ∧
    collectPeer "p" (some poolJsonW7) =
      [⟨nmSnapSpeed, ["p", "v"], 0⟩,
       ⟨nmSnapBytesPerSnapshot, ["p", "v"], 0⟩,
       ⟨nmSnapLastSnapshotBytes, ["p", "v"], 0⟩,
       ⟨nmSnapLastSnapshotSyncSecs, ["p", "v"], 0⟩,
       ⟨nmSnapReplicationState, ["p", "v", ""], 0⟩] := by
  constructor
  · exact c7_peer_description_extraction.1 "p" "u" "" "" [] "plain text"
      (by with_unfolding_all rfl)
  · have h := c7_peer_description_extraction.2.2 "p" poolJsonW7
      ⟨[⟨"u", [⟨"plain text", "", ""⟩]⟩, ⟨"v", [⟨descW8, "", ""⟩]⟩]⟩
      [] [⟨"v", [⟨descW8, "", ""⟩]⟩] "u" "" "" "plain text" []
      (by with_unfolding_all rfl) rfl (by with_unfolding_all rfl)
    rw [h]
    with_unfolding_all rfl

/-- Claim C8: once a peer-shape resource's stats fragment decodes, the
replication-state gauge is emitted with value 1 exactly when the peer state
string contains the substring `replaying` and 0 otherwise, carrying the
state string as a third label value after pool and image; and whenever the
peer's last-update string parses in the fixed `2006-01-02 15:04:05` layout,
the last-update gauge is emitted carrying its Unix epoch seconds. -/
theorem c8_replication_state_and_timestamp (pool name : String)
    (peer : PeerSite) (rest : List PeerSite) (frag : String)
    (st : SnapshotStats4)
    (hbrace : firstBraceSplit peer.description = some frag)
    (hfrag : parseSnapshotStats4 frag = some st) :
    ((emitImagePeer pool ⟨name, peer :: rest⟩).filter
        (fun s => s.name == nmSnapReplicationState) =
      [⟨nmSnapReplicationState, [pool, name, peer.state],
        if strContains peer.state "replaying" then 1 else 0⟩]) ∧
    (∀ t, parseDateTime peer.lastUpdate = some t →
      (emitImagePeer pool ⟨name, peer :: rest⟩).filter
          (fun s => s.name == nmSnapLastUpdateTs) =
        [⟨nmSnapLastUpdateTs, [pool, name], ((toUnix t : Int) : ℚ)⟩]) := by
  have hemit : emitImagePeer pool ⟨name, peer :: rest⟩ =
      emitPeerParsed pool name peer st := by
    simp only [emitImagePeer, hbrace, hfrag]
  constructor
  · rw [hemit, emitPeerParsed, List.filter_append, List.filter_append]
    rw [show (emitSnapshot4 [pool, name] st).filter
        (fun s => s.name == nmSnapReplicationState) = [] from rfl]
    rw [show ([stateSample [pool, name] peer]).filter
        (fun s => s.name == nmSnapReplicationState) =
      [⟨nmSnapReplicationState, [pool, name, peer.state],
        if strContains peer.state "replaying" then 1 else 0⟩] from rfl]
    rw [show (tsSamples [pool, name] peer).filter
        (fun s => s.name == nmSnapReplicationState) = [] from ?_]
    · simp
    · rw [tsSamples]
      cases parseDateTime peer.lastUpdate <;> rfl
  · intro t ht
    rw [hemit, emitPeerParsed, List.filter_append, List.filter_append]
    rw [show (emitSnapshot4 [pool, name] st).filter
        (fun s => s.name == nmSnapLastUpdateTs) = [] from rfl]
    rw [show ([stateSample [pool, name] peer]).filter
        (fun s => s.name == nmSnapLastUpdateTs) = [] from rfl]
    rw [show (tsSamples [pool, name] peer).filter
        (fun s => s.name == nmSnapLastUpdateTs) =
      [⟨nmSnapLastUpdateTs, [pool, name], ((toUnix t : Int) : ℚ)⟩] from ?_]
    · simp
    · simp only [tsSamples, ht]
      rfl

set_option maxRecDepth 20000 in
/-- Witness for C8: state `up+replaying` (contains `replaying`, value 1,
and appears as the third label value) and last-update
`2024-05-01 12:00:00`, whose epoch is 1714564800. -/
theorem c8_replication_state_and_timestamp_witness :
    ((emitImagePeer "p" ⟨"img",
        [⟨descW8, "up+replaying", "2024-05-01 12:00:00"⟩]⟩).filter
        (fun s => s.name == nmSnapReplicationState) =
      [⟨nmSnapReplicationState, ["p", "img", "up+replaying"], 1⟩]) ∧
    ((emitImagePeer "p" ⟨"img",
        [⟨descW8, "up+replaying", "2024-05-01 12:00:00"⟩]⟩).filter
        (fun s => s.name == nmSnapLastUpdateTs) =
      [⟨nmSnapLastUpdateTs, ["p", "img"], 1714564800⟩]) := by
  have h := c8_replication_state_and_timestamp "p" "img"
    ⟨descW8, "up+replaying", "2024-05-01 12:00:00"⟩ [] "\x7b\x7d" ⟨0, 0, 0, 0⟩
    (by with_unfolding_all rfl) (by with_unfolding_all rfl)
  constructor
  · rw [h.1]
    with_unfolding_all rfl
  · rw [h.2 ⟨2024, 5, 1, 12, 0, 0⟩ (by with_unfolding_all rfl)]
    with_unfolding_all rfl

/-- Claim C10: in the peer-description shape (both the v0.1.18 and v0.1.17
variants) a resource with an empty peer-sites list contributes zero samples
and the loop just continues (its skip path contains no log call), and for a
non-empty list only `PeerSites[0]` is ever consulted: replacing the tail by
anything — here, dropping it — never changes the emission. -/
theorem c10_first_peer_site_only :
    (∀ pool name, emitImagePeer pool ⟨name, []⟩ = []) ∧
    (∀ pool name, emitImagePeer17 pool ⟨name, []⟩ = []) ∧
    (∀ pool name p rest, emitImagePeer pool ⟨name, p :: rest⟩ =
      emitImagePeer pool ⟨name, [p]⟩) ∧
    (∀ pool name p rest, emitImagePeer17 pool ⟨name, p :: rest⟩ =
      emitImagePeer17 pool ⟨name, [p]⟩) :=
  ⟨fun _ _ => rfl, fun _ _ => rfl, fun _ _ _ _ => rfl, fun _ _ _ _ => rfl⟩

end CephVM
